import Mathlib

/-!
Verification of the gasless / meta-transaction relay path of the vendored SDK
module layer (`Module.sendGaslessTransaction`, `Module.sendContractTransaction`,
`Module.getCallOverrides`, `Module.sendAndWaitForTransaction` in
`scripts/9-setup-vote.js` lines 308-494).

The stateful, asynchronous TypeScript code is shallowly embedded as pure Lean
functions over an explicit environment `ModuleEnv` that carries all external
collaborators (signer, provider, gas-price oracle, permit signer, relay
transport, forwarder nonce source) as data.  Network interactions are recorded
in an explicit effect trace, and the per-sender nonce cache is threaded as
explicit state.
-/

namespace ThirdwebGasless

/-- A mined transaction receipt as returned by `provider.waitForTransaction`. -/
structure Receipt where
  transactionHash : String
  status : Nat
deriving DecidableEq, Repr

/-- ethers `CallOverrides`: only the fields the relay path reads
(`value`) and the standard path writes (`gasPrice`). An absent field is
`none`. -/
structure CallOverrides where
  value : Option Nat := none
  gasPrice : Option Nat := none
deriving DecidableEq, Repr

/-- The generic meta-transaction envelope built at lines 428-435:
`{from, to, value, gas, nonce, data}` with the numeric fields rendered as
decimal strings via `BigNumber.from(x).toString()`.  The source field `from`
is a Lean keyword and is embedded as `fromAddr`. -/
structure ForwardRequestMessage where
  fromAddr : String
  toAddr : String
  value : String
  gas : String
  nonce : String
  data : String
deriving DecidableEq, Repr

/-- The value returned by `signERC2612Permit(signer, token, owner, spender,
amount)` from the `eth-permit` library: the permit message fields together
with the split signature `{v, r, s}` (`r`, `s` are `0x`-prefixed hex strings,
`v` a number). -/
structure PermitResult where
  owner : String
  spender : String
  value : String
  nonce : String
  deadline : String
  v : Nat
  r : String
  s : String
deriving DecidableEq, Repr

/-- The permit envelope built at line 458 as `{to: contract.address,
...permit}`: the JS spread copies every field of the permit result next to
`to`. -/
structure PermitRequestMessage where
  toAddr : String
  owner : String
  spender : String
  value : String
  nonce : String
  deadline : String
  v : Nat
  r : String
  s : String
deriving DecidableEq, Repr

/-- The message finally submitted to the relay: either the generic forward
request or the permit request. -/
inductive RelayMessage where
  | forward (m : ForwardRequestMessage)
  | permit (m : PermitRequestMessage)
deriving DecidableEq, Repr

/-- The EIP-712 signing domain built at lines 417-422. -/
structure SigningDomain where
  name : String
  version : String
  chainId : Nat
  verifyingContract : String
deriving DecidableEq, Repr

/-- Modelled from the spec: the `ForwardRequest` EIP-712 type descriptor is
imported from the SDK's `common/forwarder` module, whose source is not part
of this repository.  Spec section 3 gives its field list: `from` and `to` are
addresses, `value`, `gas`, `nonce` are uint256 counters, `data` is the
ABI-encoded byte payload. -/
def ForwardRequestTypeFields : List (String × String) :=
  [("from", "address"), ("to", "address"), ("value", "uint256"),
   ("gas", "uint256"), ("nonce", "uint256"), ("data", "bytes")]

/-- The contract interface surface the relay path uses:
`interface.functions[signature]` existence checks and
`interface.encodeFunctionData(fn, args)`. -/
structure ContractInterface where
  functions : List String
  encodeFunctionData : String → List String → String

/-- An ethers `BaseContract` as seen by the relay path: its address, its
interface, and `contract.estimateGas[fn](...args)`. -/
structure BaseContract where
  address : String
  interface : ContractInterface
  estimateGas : String → List String → Nat

/-- The connected signer: its address, the `isWalletConnect` capability flag
found on its provider's provider, the native `_signTypedData` entry point,
and the raw JSON-RPC `provider.send(method, params)` entry point.  The
signing entry points are oracles returning the signature the wallet would
produce. -/
structure SignerInfo where
  address : String
  isWalletConnect : Bool
  signTypedDataNative : SigningDomain → List (String × String) → ForwardRequestMessage → String
  sendRpc : String → List String → String

/-- The relevant fields of `ISDKOptions`. -/
structure SdkOptions where
  transactionRelayerUrl : Option String
  transactionRelayerForwarderAddress : String
  gasSpeed : String
  maxGasPriceInGwei : Nat

/-- The result of awaiting `contract.functions[fn](...args, overrides)` in the
standard path: `wait` is the receipt that `tx.wait()` would resolve to when
the response has a `wait` member, and `asReceipt` is the value itself for the
case where it is already a receipt (lines 375-379). -/
structure TxResult where
  wait : Option Receipt
  asReceipt : Receipt

/-- The locally cached per-sender forwarder nonces, keyed by sender address. -/
abbrev NonceState := List (String × Nat)

/-- The environment of a `Module` instance: its mutable signer/provider slot,
configuration, and every external collaborator as a pure oracle. -/
structure ModuleEnv where
  signer : Option SignerInfo
  providerPresent : Bool
  chainId : Nat
  moduleAddress : String
  options : SdkOptions
  forwarderNonce : String → Nat
  signPermit : String → String → String → String → PermitResult
  payloadJson : SigningDomain → List (String × String) → ForwardRequestMessage → String
  relaySend : RelayMessage → String → String
  waitForTransaction : String → Receipt
  gasPriceOracle : Nat → String → Nat → Option Nat
  submitDirect : BaseContract → String → List String → CallOverrides → TxResult

/-- The error kinds the embedded code can raise: `invariant(cond, msg)` from
`common/invariant` throws an `InvariantError` carrying `msg`. -/
inductive SdkError where
  | invariantError (message : String)
deriving DecidableEq, Repr

/-- Network interactions performed by the relay path, in order. -/
inductive NetEffect where
  | chainIdRead
  | gasEstimate
  | nonceRead
  | permitSign
  | rpcSignTypedData
  | typedDataSign
  | relayDispatch
  | waitForTx
deriving DecidableEq, Repr

/-- What a successful gasless call produces: the submitted message and
signature, the relay-returned transaction hash, and the awaited receipt. -/
structure GaslessOutcome where
  message : RelayMessage
  signature : String
  txHash : String
  receipt : Receipt
deriving DecidableEq, Repr

/-- Modelled from the spec: `getAndIncrementNonce(forwarder, from)` is
imported from the SDK's `common/forwarder` module, whose source is not part
of this repository.  Per spec sections 3 and 6, it returns the value last
observed from the forwarder contract for `from` (reading the forwarder when
no value is cached locally) and then speculatively increments the locally
cached per-sender nonce, so that a later call in the same process observes
the next value. -/
def getAndIncrementNonce (env : ModuleEnv) (st : NonceState) (sender : String) :
    Nat × NonceState :=
  let n := match st.lookup sender with
    | some cached => cached
    | none => env.forwarderNonce sender
  (n, (sender, n + 1) :: st.filter (fun p => p.1 ≠ sender))

/-- JS `Number.prototype.toString(16)`: lowercase hexadecimal digits, no
padding, used at line 459 to append `v` to the packed permit signature. -/
def hexRepr (n : Nat) : String :=
  (Nat.toDigits 16 n).asString

/-- Lines 406-414: the forwarded gas limit is twice the estimate, overridden
to a flat 500000 when the raw estimate is below 25000. -/
def gaslessGas (contract : BaseContract) (fn : String) (args : List String) : Nat :=
  let gasEstimate := contract.estimateGas fn args
  if gasEstimate < 25000 then 500000 else gasEstimate * 2

/-- Lines 417-422: the fixed GSNv2 forwarder signing domain. -/
def gaslessDomain (env : ModuleEnv) : SigningDomain :=
  { name := "GSNv2 Forwarder"
    version := "0.0.1"
    chainId := env.chainId
    verifyingContract := env.options.transactionRelayerForwarderAddress }

/-- Lines 428-435: the generic forward-request message, given the nonce the
forwarder nonce source returned.  `value` comes from the call overrides with
default 0; `value`, `gas`, `nonce` are decimal strings. -/
def forwardMessageOf (env : ModuleEnv) (signer : SignerInfo) (contract : BaseContract)
    (fn : String) (args : List String) (ov : CallOverrides) (nonce : Nat) :
    ForwardRequestMessage :=
  { fromAddr := signer.address
    toAddr := env.moduleAddress
    value := Nat.repr (ov.value.getD 0)
    gas := Nat.repr (gaslessGas contract fn args)
    nonce := Nat.repr nonce
    data := contract.interface.encodeFunctionData fn args }

/-- Lines 441-448: the permit path is taken exactly when the function is
`approve` with two arguments and the contract interface exposes both the
ERC-20 approve signature and the ERC-2612 permit signature. -/
def permitEligible (contract : BaseContract) (fn : String) (args : List String) : Prop :=
  fn = "approve" ∧ args.length = 2 ∧
    "approve(address,uint256)" ∈ contract.interface.functions ∧
    "permit(address,address,uint256,uint256,uint8,bytes32,bytes32)"
      ∈ contract.interface.functions

instance (contract : BaseContract) (fn : String) (args : List String) :
    Decidable (permitEligible contract fn args) := by
  unfold permitEligible
  exact inferInstance

/-- Line 458: `{to: contract.address, ...permit}`. -/
def permitMessageOf (tokenAddress : String) (p : PermitResult) : PermitRequestMessage :=
  { toAddr := tokenAddress, owner := p.owner, spender := p.spender, value := p.value,
    nonce := p.nonce, deadline := p.deadline, v := p.v, r := p.r, s := p.s }

/-- Line 459: the packed permit signature
`` `${permit.r}${permit.s.substring(2)}${permit.v.toString(16)}` ``. -/
def packPermitSignature (p : PermitResult) : String :=
  p.r ++ p.s.drop 2 ++ hexRepr p.v

/-- Lines 461-484: typed-data signing of the generic message.  When the
signer's provider exposes `isWalletConnect`, the raw JSON-RPC
`eth_signTypedData` method is sent with the lower-cased `from` address and
the JSON-serialized EIP-712 payload; otherwise the native `_signTypedData`
entry point is used with the same domain, types and message. -/
def typedDataSignOf (env : ModuleEnv) (signer : SignerInfo) (domain : SigningDomain)
    (message : ForwardRequestMessage) : String :=
  if signer.isWalletConnect then
    signer.sendRpc "eth_signTypedData"
      [signer.address.toLower, env.payloadJson domain ForwardRequestTypeFields message]
  else
    signer.signTypedDataNative domain ForwardRequestTypeFields message

/-- The body of `sendGaslessTransaction` after the signer and provider
invariants have passed (lines 398-493). -/
def gaslessWithSigner (env : ModuleEnv) (signer : SignerInfo) (st : NonceState)
    (contract : BaseContract) (fn : String) (args : List String) (ov : CallOverrides) :
    Except SdkError GaslessOutcome × List NetEffect × NonceState :=
  let res := getAndIncrementNonce env st signer.address
  let domain := gaslessDomain env
  let fwdMsg := forwardMessageOf env signer contract fn args ov res.1
  if permitEligible contract fn args then
    let p := env.signPermit contract.address signer.address (args.getD 0 "") (args.getD 1 "")
    let message := RelayMessage.permit (permitMessageOf contract.address p)
    let signature := packPermitSignature p
    let txHash := env.relaySend message signature
    (Except.ok { message := message, signature := signature, txHash := txHash,
                 receipt := env.waitForTransaction txHash },
     [NetEffect.chainIdRead, NetEffect.gasEstimate, NetEffect.nonceRead,
      NetEffect.permitSign, NetEffect.relayDispatch, NetEffect.waitForTx],
     res.2)
  else
    let message := RelayMessage.forward fwdMsg
    let signature := typedDataSignOf env signer domain fwdMsg
    let txHash := env.relaySend message signature
    (Except.ok { message := message, signature := signature, txHash := txHash,
                 receipt := env.waitForTransaction txHash },
     [NetEffect.chainIdRead, NetEffect.gasEstimate, NetEffect.nonceRead,
      (if signer.isWalletConnect then NetEffect.rpcSignTypedData
       else NetEffect.typedDataSign),
      NetEffect.relayDispatch, NetEffect.waitForTx],
     res.2)

/-- Lines 385-494: `sendGaslessTransaction`.  The result triple is the
call's outcome, the trace of network interactions it performed, and the
final nonce cache. -/
def sendGaslessTransaction (env : ModuleEnv) (st : NonceState) (contract : BaseContract)
    (fn : String) (args : List String) (ov : CallOverrides) :
    Except SdkError GaslessOutcome × List NetEffect × NonceState :=
  match env.signer with
  | none =>
      (Except.error
        (SdkError.invariantError "Cannot execute gasless transaction without valid signer"),
       [], st)
  | some signer =>
      if env.providerPresent then
        gaslessWithSigner env signer st contract fn args ov
      else
        (Except.error (SdkError.invariantError "no provider to execute transaction"),
         [], st)

/-- JS truthiness of the `transactionRelayerUrl` option at line 349: absent
and empty strings are falsy. -/
def truthyStr : Option String → Bool
  | none => false
  | some s => s != ""

/-- Lines 308-324: `getCallOverrides`.  The gas-price oracle is keyed by
chain id, configured speed and gas-price cap; a falsy oracle result yields
no override, otherwise the gwei price is converted to wei via
`ethers.utils.parseUnits(x, "gwei")`. -/
def getCallOverrides (env : ModuleEnv) : CallOverrides :=
  match env.gasPriceOracle env.chainId env.options.gasSpeed env.options.maxGasPriceInGwei with
  | none => {}
  | some gwei => if gwei = 0 then {} else { gasPrice := some (gwei * 1000000000) }

/-- Lines 369-380: the standard path submits the call directly through the
connected contract and waits for the receipt when the response has a `wait`
member. -/
def sendAndWaitForTransaction (env : ModuleEnv) (contract : BaseContract)
    (fn : String) (args : List String) (ov : CallOverrides) : Receipt :=
  let tx := env.submitDirect contract fn args ov
  match tx.wait with
  | some r => r
  | none => tx.asReceipt

deriving instance DecidableEq for Except

/-- The observable outcome of `sendContractTransaction`: which path was taken
and what it produced. -/
inductive ContractTxOutcome where
  | gasless (result : Except SdkError GaslessOutcome) (trace : List NetEffect)
      (nonces : NonceState)
  | standard (usedOverrides : CallOverrides) (receipt : Receipt)
deriving DecidableEq, Repr

/-- Lines 340-364: `sendContractTransaction` fills in the overrides when none
were passed, then routes to the gasless path exactly when
`options.transactionRelayerUrl` is truthy, and to the standard path
otherwise. -/
def sendContractTransaction (env : ModuleEnv) (st : NonceState) (contract : BaseContract)
    (fn : String) (args : List String) (callOverrides : Option CallOverrides) :
    ContractTxOutcome :=
  let ov := match callOverrides with
    | some c => c
    | none => getCallOverrides env
  if truthyStr env.options.transactionRelayerUrl then
    let g := sendGaslessTransaction env st contract fn args ov
    ContractTxOutcome.gasless g.1 g.2.1 g.2.2
  else
    ContractTxOutcome.standard ov (sendAndWaitForTransaction env contract fn args ov)

/-! ### Concrete instances used to evaluate the embedding -/

/-- A concrete contract interface whose encoder records the call it was asked
to encode. -/
def demoInterface (fns : List String) : ContractInterface :=
  { functions := fns
    encodeFunctionData := fun fn args => "calldata:" ++ fn ++ ":" ++ String.intercalate "," args }

/-- A concrete contract binding with a constant gas estimate. -/
def demoContract (addr : String) (fns : List String) (estimate : Nat) : BaseContract :=
  { address := addr
    interface := demoInterface fns
    estimateGas := fun _ _ => estimate }

/-- A concrete signer whose signing oracles record what they were asked to
sign. -/
def demoSigner (wc : Bool) : SignerInfo :=
  { address := "0xSender"
    isWalletConnect := wc
    signTypedDataNative := fun d _ m => "native:" ++ d.verifyingContract ++ ":" ++ m.nonce
    sendRpc := fun method params => "rpc:" ++ method ++ ":" ++ String.intercalate "|" params }

/-- Concrete SDK options. -/
def demoOptions (relayer : Option String) : SdkOptions :=
  { transactionRelayerUrl := relayer
    transactionRelayerForwarderAddress := "0xForwarder"
    gasSpeed := "fastest"
    maxGasPriceInGwei := 300 }

/-- A concrete module environment: forwarder nonces start at 7, the relay
returns hash `0xabc`, waiting yields a status-1 receipt for that hash. -/
def demoEnv (signer : Option SignerInfo) (relayer : Option String) : ModuleEnv :=
  { signer := signer
    providerPresent := true
    chainId := 137
    moduleAddress := "0xModule"
    options := demoOptions relayer
    forwarderNonce := fun _ => 7
    signPermit := fun _token owner spender amount =>
      { owner := owner, spender := spender, value := amount, nonce := "3",
        deadline := "99999999", v := 27, r := "0xaaaa", s := "0xbbbb" }
    payloadJson := fun d _ m => "payload:" ++ d.name ++ ":" ++ m.nonce
    relaySend := fun _ _ => "0xabc"
    waitForTransaction := fun h => { transactionHash := h, status := 1 }
    gasPriceOracle := fun _ _ _ => some 40
    submitDirect := fun _ _ _ _ =>
      { wait := some { transactionHash := "0xdirect", status := 1 },
        asReceipt := { transactionHash := "0xplain", status := 1 } } }

/-- A token contract exposing both the ERC-20 approve and the ERC-2612 permit
signatures, so the permit path is eligible. -/
def permitTokenContract : BaseContract :=
  demoContract "0xToken"
    ["approve(address,uint256)",
     "permit(address,address,uint256,uint256,uint8,bytes32,bytes32)"] 30000

/-- A plain contract without the permit extension. -/
def plainContract : BaseContract :=
  demoContract "0xToken" ["transfer(address,uint256)"] 30000

/-! ### Helper lemmas -/

/-- With a signer attached and a provider present, `sendGaslessTransaction`
runs its main body. -/
theorem sendGaslessTransaction_with_signer (env : ModuleEnv) (signer : SignerInfo)
    (st : NonceState) (contract : BaseContract) (fn : String) (args : List String)
    (ov : CallOverrides) (hs : env.signer = some signer)
    (hp : env.providerPresent = true) :
    sendGaslessTransaction env st contract fn args ov =
      gaslessWithSigner env signer st contract fn args ov := by
  unfold sendGaslessTransaction
  rw [hs, hp]
  simp

/-- The nonce cache after a read maps the sender to the successor of the value
that was returned. -/
theorem getAndIncrementNonce_lookup (env : ModuleEnv) (st : NonceState)
    (sender : String) :
    ((getAndIncrementNonce env st sender).2).lookup sender =
      some ((getAndIncrementNonce env st sender).1 + 1) := by
  simp [getAndIncrementNonce, List.lookup]

/-! ### Claims -/

/-- Claim C6: with no signing identity attached, `sendGaslessTransaction`
fails with an `InvariantError` kind, performs no network interaction at all
(no gas estimation, no nonce read, no relay dispatch: the effect trace is
empty), and leaves the nonce cache untouched. -/
theorem C6_missing_signer_fails_first (env : ModuleEnv) (st : NonceState)
    (contract : BaseContract) (fn : String) (args : List String)
    (ov : CallOverrides) (hs : env.signer = none) :
    sendGaslessTransaction env st contract fn args ov =
      (Except.error (SdkError.invariantError
        "Cannot execute gasless transaction without valid signer"), [], st) := by
  unfold sendGaslessTransaction
  rw [hs]

/-- Witness for C6 at a concrete environment with no signer. -/
theorem C6_witness :
    sendGaslessTransaction (demoEnv none (some "https://relayer")) [] plainContract
        "transfer" ["0xdead", "7"] {} =
      (Except.error (SdkError.invariantError
        "Cannot execute gasless transaction without valid signer"), [], []) :=
  C6_missing_signer_fails_first (demoEnv none (some "https://relayer")) [] plainContract
    "transfer" ["0xdead", "7"] {} rfl

/-- Claim C2: the forwarded gas limit is 500000 when the estimate is below
25000 and twice the estimate otherwise; at the boundary, an estimate of 24999
yields 500000 and an estimate of 25000 yields 50000. -/
theorem C2_gas_limit_policy (contract : BaseContract) (fn : String)
    (args : List String) :
    (contract.estimateGas fn args < 25000 → gaslessGas contract fn args = 500000) ∧
    (25000 ≤ contract.estimateGas fn args →
      gaslessGas contract fn args = 2 * contract.estimateGas fn args) ∧
    gaslessGas (demoContract "0xT" [] 24999) "f" [] = 500000 ∧
    gaslessGas (demoContract "0xT" [] 25000) "f" [] = 50000 := by
  refine ⟨fun h => ?_, fun h => ?_, by decide, by decide⟩
  · simp [gaslessGas, h]
  · simp only [gaslessGas]
    rw [if_neg (by omega)]
    omega

/-- Witness for C2: both sides of the threshold at concrete estimates. -/
theorem C2_witness :
    gaslessGas (demoContract "0xT" [] 20000) "f" [] = 500000 ∧
    gaslessGas (demoContract "0xT" [] 30000) "f" [] =
      2 * (demoContract "0xT" [] 30000).estimateGas "f" [] :=
  ⟨(C2_gas_limit_policy (demoContract "0xT" [] 20000) "f" []).1 (by decide),
   (C2_gas_limit_policy (demoContract "0xT" [] 30000) "f" []).2.1 (by decide)⟩

/-- Claim C1: when the function is `approve` with two arguments and the
interface exposes both the approve and the permit signatures,
`sendGaslessTransaction` submits a `PermitRequest` whose `to` is the token
contract address, with the permit signature packed as `r ++ s ++ v`
(`v` rendered as `toString(16)`, a single trailing byte for the standard
values 27 and 28); on every other call it submits a generic `ForwardRequest`
signed as typed data. -/
theorem C1_permit_vs_forward (env : ModuleEnv) (signer : SignerInfo)
    (st : NonceState) (contract : BaseContract) (fn : String) (args : List String)
    (ov : CallOverrides) (hs : env.signer = some signer)
    (hp : env.providerPresent = true) :
    (∀ p, p = env.signPermit contract.address signer.address
        (args.getD 0 "") (args.getD 1 "") →
      permitEligible contract fn args →
      ∃ out, (sendGaslessTransaction env st contract fn args ov).1 = Except.ok out ∧
        out.message = RelayMessage.permit (permitMessageOf contract.address p) ∧
        (permitMessageOf contract.address p).toAddr = contract.address ∧
        out.signature = p.r ++ p.s.drop 2 ++ hexRepr p.v ∧
        (p.v = 27 ∨ p.v = 28 → (hexRepr p.v).length = 2)) ∧
    (¬ permitEligible contract fn args →
      ∃ out fwd,
        (sendGaslessTransaction env st contract fn args ov).1 = Except.ok out ∧
        out.message = RelayMessage.forward fwd ∧
        out.signature = typedDataSignOf env signer (gaslessDomain env) fwd) := by
  rw [sendGaslessTransaction_with_signer env signer st contract fn args ov hs hp]
  constructor
  · intro p hpdef hperm
    subst hpdef
    simp only [gaslessWithSigner]
    rw [if_pos hperm]
    refine ⟨_, rfl, rfl, rfl, rfl, fun hv => ?_⟩
    rcases hv with h | h <;> rw [h] <;> decide
  · intro hperm
    simp only [gaslessWithSigner]
    rw [if_neg hperm]
    exact ⟨_, _, rfl, rfl, rfl⟩

/-- Witness for C1: both branches evaluated at concrete inputs (the permit
branch on a token exposing both signatures, the generic branch on a plain
contract). -/
theorem C1_witness :
    (∃ out,
      (sendGaslessTransaction (demoEnv (some (demoSigner false)) (some "https://relayer"))
          [] permitTokenContract "approve" ["0xSpender", "1000"] {}).1 = Except.ok out ∧
      out.message = RelayMessage.permit (permitMessageOf permitTokenContract.address
        ((demoEnv (some (demoSigner false)) (some "https://relayer")).signPermit
          permitTokenContract.address (demoSigner false).address "0xSpender" "1000")) ∧
      (permitMessageOf permitTokenContract.address
        ((demoEnv (some (demoSigner false)) (some "https://relayer")).signPermit
          permitTokenContract.address (demoSigner false).address "0xSpender" "1000")).toAddr =
        permitTokenContract.address ∧
      out.signature =
        ((demoEnv (some (demoSigner false)) (some "https://relayer")).signPermit
          permitTokenContract.address (demoSigner false).address "0xSpender" "1000").r ++
        ((demoEnv (some (demoSigner false)) (some "https://relayer")).signPermit
          permitTokenContract.address (demoSigner false).address "0xSpender" "1000").s.drop 2 ++
        hexRepr ((demoEnv (some (demoSigner false)) (some "https://relayer")).signPermit
          permitTokenContract.address (demoSigner false).address "0xSpender" "1000").v ∧
      (((demoEnv (some (demoSigner false)) (some "https://relayer")).signPermit
          permitTokenContract.address (demoSigner false).address "0xSpender" "1000").v = 27 ∨
       ((demoEnv (some (demoSigner false)) (some "https://relayer")).signPermit
          permitTokenContract.address (demoSigner false).address "0xSpender" "1000").v = 28 →
        (hexRepr ((demoEnv (some (demoSigner false)) (some "https://relayer")).signPermit
          permitTokenContract.address (demoSigner false).address "0xSpender" "1000").v).length = 2)) ∧
    (∃ out fwd,
      (sendGaslessTransaction (demoEnv (some (demoSigner false)) (some "https://relayer"))
          [] plainContract "transfer" ["0xdead", "7"] {}).1 = Except.ok out ∧
      out.message = RelayMessage.forward fwd ∧
      out.signature = typedDataSignOf (demoEnv (some (demoSigner false)) (some "https://relayer"))
        (demoSigner false)
        (gaslessDomain (demoEnv (some (demoSigner false)) (some "https://relayer"))) fwd) :=
  ⟨(C1_permit_vs_forward (demoEnv (some (demoSigner false)) (some "https://relayer"))
      (demoSigner false) [] permitTokenContract "approve" ["0xSpender", "1000"] {}
      rfl rfl).1 _ rfl (by decide),
   (C1_permit_vs_forward (demoEnv (some (demoSigner false)) (some "https://relayer"))
      (demoSigner false) [] plainContract "transfer" ["0xdead", "7"] {}
      rfl rfl).2 (by decide)⟩

/-- Claim C3: on the relay path the `nonce` field of the built
`ForwardRequest` is the decimal rendering of the value the forwarder nonce
source returned at read time; afterwards the cached per-sender nonce is its
successor, so a second sequential call in the same process observes a
strictly different (successor) nonce. -/
theorem C3_nonce_read_then_increment (env : ModuleEnv) (signer : SignerInfo)
    (st : NonceState) (contract : BaseContract) (fn : String) (args : List String)
    (ov : CallOverrides) (hs : env.signer = some signer)
    (hp : env.providerPresent = true)
    (hperm : ¬ permitEligible contract fn args) :
    ∃ out fwd,
      (sendGaslessTransaction env st contract fn args ov).1 = Except.ok out ∧
      out.message = RelayMessage.forward fwd ∧
      fwd.nonce = Nat.repr (getAndIncrementNonce env st signer.address).1 ∧
      ((sendGaslessTransaction env st contract fn args ov).2.2).lookup signer.address =
        some ((getAndIncrementNonce env st signer.address).1 + 1) ∧
      (getAndIncrementNonce env
          ((sendGaslessTransaction env st contract fn args ov).2.2) signer.address).1 =
        (getAndIncrementNonce env st signer.address).1 + 1 ∧
      (getAndIncrementNonce env
          ((sendGaslessTransaction env st contract fn args ov).2.2) signer.address).1 ≠
        (getAndIncrementNonce env st signer.address).1 := by
  rw [sendGaslessTransaction_with_signer env signer st contract fn args ov hs hp]
  simp only [gaslessWithSigner]
  rw [if_neg hperm]
  refine ⟨_, _, rfl, rfl, rfl, getAndIncrementNonce_lookup env st signer.address, ?_, ?_⟩
  · show (getAndIncrementNonce env (getAndIncrementNonce env st signer.address).2
      signer.address).1 = _
    simp [getAndIncrementNonce, List.lookup]
  · show (getAndIncrementNonce env (getAndIncrementNonce env st signer.address).2
      signer.address).1 ≠ _
    simp [getAndIncrementNonce, List.lookup]

/-- Witness for C3 at a concrete environment (forwarder nonce 7). -/
theorem C3_witness :
    ∃ out fwd,
      (sendGaslessTransaction (demoEnv (some (demoSigner false)) (some "https://relayer"))
          [] plainContract "transfer" ["0xdead", "7"] {}).1 = Except.ok out ∧
      out.message = RelayMessage.forward fwd ∧
      fwd.nonce = Nat.repr (getAndIncrementNonce
        (demoEnv (some (demoSigner false)) (some "https://relayer")) []
        (demoSigner false).address).1 ∧
      ((sendGaslessTransaction (demoEnv (some (demoSigner false)) (some "https://relayer"))
          [] plainContract "transfer" ["0xdead", "7"] {}).2.2).lookup
          (demoSigner false).address =
        some ((getAndIncrementNonce
          (demoEnv (some (demoSigner false)) (some "https://relayer")) []
          (demoSigner false).address).1 + 1) ∧
      (getAndIncrementNonce (demoEnv (some (demoSigner false)) (some "https://relayer"))
          ((sendGaslessTransaction (demoEnv (some (demoSigner false)) (some "https://relayer"))
            [] plainContract "transfer" ["0xdead", "7"] {}).2.2)
          (demoSigner false).address).1 =
        (getAndIncrementNonce (demoEnv (some (demoSigner false)) (some "https://relayer")) []
          (demoSigner false).address).1 + 1 ∧
      (getAndIncrementNonce (demoEnv (some (demoSigner false)) (some "https://relayer"))
          ((sendGaslessTransaction (demoEnv (some (demoSigner false)) (some "https://relayer"))
            [] plainContract "transfer" ["0xdead", "7"] {}).2.2)
          (demoSigner false).address).1 ≠
        (getAndIncrementNonce (demoEnv (some (demoSigner false)) (some "https://relayer")) []
          (demoSigner false).address).1 :=
  C3_nonce_read_then_increment (demoEnv (some (demoSigner false)) (some "https://relayer"))
    (demoSigner false) [] plainContract "transfer" ["0xdead", "7"] {} rfl rfl (by decide)

/-- Claim C4: on the generic path, a signer whose provider exposes
`isWalletConnect` signs via the raw JSON-RPC `eth_signTypedData` method with
the lower-cased `from` address and the JSON-serialized EIP-712 payload;
otherwise via the native `_signTypedData` entry point with the same domain,
types and message. -/
theorem C4_wallet_connect_detection (env : ModuleEnv) (signer : SignerInfo)
    (st : NonceState) (contract : BaseContract) (fn : String) (args : List String)
    (ov : CallOverrides) (hs : env.signer = some signer)
    (hp : env.providerPresent = true)
    (hperm : ¬ permitEligible contract fn args) :
    ∃ out fwd,
      (sendGaslessTransaction env st contract fn args ov).1 = Except.ok out ∧
      out.message = RelayMessage.forward fwd ∧
      (signer.isWalletConnect = true →
        out.signature = signer.sendRpc "eth_signTypedData"
          [signer.address.toLower,
           env.payloadJson (gaslessDomain env) ForwardRequestTypeFields fwd]) ∧
      (signer.isWalletConnect = false →
        out.signature =
          signer.signTypedDataNative (gaslessDomain env) ForwardRequestTypeFields fwd) := by
  rw [sendGaslessTransaction_with_signer env signer st contract fn args ov hs hp]
  simp only [gaslessWithSigner]
  rw [if_neg hperm]
  refine ⟨_, _, rfl, rfl, fun hwc => ?_, fun hwc => ?_⟩ <;>
    simp [typedDataSignOf, hwc]

/-- Witness for C4: both branches at concrete signers (wallet-connect and
native). -/
theorem C4_witness :
    (∃ out fwd,
      (sendGaslessTransaction (demoEnv (some (demoSigner true)) (some "https://relayer"))
          [] plainContract "transfer" ["0xdead", "7"] {}).1 = Except.ok out ∧
      out.message = RelayMessage.forward fwd ∧
      ((demoSigner true).isWalletConnect = true →
        out.signature = (demoSigner true).sendRpc "eth_signTypedData"
          [(demoSigner true).address.toLower,
           (demoEnv (some (demoSigner true)) (some "https://relayer")).payloadJson
             (gaslessDomain (demoEnv (some (demoSigner true)) (some "https://relayer")))
             ForwardRequestTypeFields fwd]) ∧
      ((demoSigner true).isWalletConnect = false →
        out.signature = (demoSigner true).signTypedDataNative
          (gaslessDomain (demoEnv (some (demoSigner true)) (some "https://relayer")))
          ForwardRequestTypeFields fwd)) ∧
    (∃ out fwd,
      (sendGaslessTransaction (demoEnv (some (demoSigner false)) (some "https://relayer"))
          [] plainContract "transfer" ["0xdead", "7"] {}).1 = Except.ok out ∧
      out.message = RelayMessage.forward fwd ∧
      ((demoSigner false).isWalletConnect = true →
        out.signature = (demoSigner false).sendRpc "eth_signTypedData"
          [(demoSigner false).address.toLower,
           (demoEnv (some (demoSigner false)) (some "https://relayer")).payloadJson
             (gaslessDomain (demoEnv (some (demoSigner false)) (some "https://relayer")))
             ForwardRequestTypeFields fwd]) ∧
      ((demoSigner false).isWalletConnect = false →
        out.signature = (demoSigner false).signTypedDataNative
          (gaslessDomain (demoEnv (some (demoSigner false)) (some "https://relayer")))
          ForwardRequestTypeFields fwd)) :=
  ⟨C4_wallet_connect_detection (demoEnv (some (demoSigner true)) (some "https://relayer"))
      (demoSigner true) [] plainContract "transfer" ["0xdead", "7"] {} rfl rfl (by decide),
   C4_wallet_connect_detection (demoEnv (some (demoSigner false)) (some "https://relayer"))
      (demoSigner false) [] plainContract "transfer" ["0xdead", "7"] {} rfl rfl (by decide)⟩

/-- Claim C9: the EIP-712 signing domain used on the generic path is exactly
`{name := "GSNv2 Forwarder", version := "0.0.1", chainId, verifyingContract
:= forwarder address}`, and the typed-data signature is produced against
exactly that domain. -/
theorem C9_signing_domain (env : ModuleEnv) (signer : SignerInfo)
    (st : NonceState) (contract : BaseContract) (fn : String) (args : List String)
    (ov : CallOverrides) (hs : env.signer = some signer)
    (hp : env.providerPresent = true)
    (hperm : ¬ permitEligible contract fn args) :
    gaslessDomain env =
      { name := "GSNv2 Forwarder", version := "0.0.1", chainId := env.chainId,
        verifyingContract := env.options.transactionRelayerForwarderAddress } ∧
    ∃ out fwd,
      (sendGaslessTransaction env st contract fn args ov).1 = Except.ok out ∧
      out.message = RelayMessage.forward fwd ∧
      out.signature = typedDataSignOf env signer
        { name := "GSNv2 Forwarder", version := "0.0.1", chainId := env.chainId,
          verifyingContract := env.options.transactionRelayerForwarderAddress } fwd := by
  refine ⟨rfl, ?_⟩
  rw [sendGaslessTransaction_with_signer env signer st contract fn args ov hs hp]
  simp only [gaslessWithSigner]
  rw [if_neg hperm]
  exact ⟨_, _, rfl, rfl, rfl⟩

/-- Witness for C9 at a concrete environment. -/
theorem C9_witness :
    gaslessDomain (demoEnv (some (demoSigner false)) (some "https://relayer")) =
      { name := "GSNv2 Forwarder", version := "0.0.1",
        chainId := (demoEnv (some (demoSigner false)) (some "https://relayer")).chainId,
        verifyingContract := (demoEnv (some (demoSigner false))
          (some "https://relayer")).options.transactionRelayerForwarderAddress } ∧
    ∃ out fwd,
      (sendGaslessTransaction (demoEnv (some (demoSigner false)) (some "https://relayer"))
          [] plainContract "transfer" ["0xdead", "7"] {}).1 = Except.ok out ∧
      out.message = RelayMessage.forward fwd ∧
      out.signature = typedDataSignOf
        (demoEnv (some (demoSigner false)) (some "https://relayer")) (demoSigner false)
        { name := "GSNv2 Forwarder", version := "0.0.1",
          chainId := (demoEnv (some (demoSigner false)) (some "https://relayer")).chainId,
          verifyingContract := (demoEnv (some (demoSigner false))
            (some "https://relayer")).options.transactionRelayerForwarderAddress } fwd :=
  C9_signing_domain (demoEnv (some (demoSigner false)) (some "https://relayer"))
    (demoSigner false) [] plainContract "transfer" ["0xdead", "7"] {} rfl rfl (by decide)

/-- Claim C10: on the permit path the forwarder nonce source is still read
and the cached per-sender nonce still incremented — the nonce read happens
before path selection — even though the submitted `PermitRequest` carries
only the permit's own token nonce, not the forwarder nonce. -/
theorem C10_permit_path_consumes_nonce (env : ModuleEnv) (signer : SignerInfo)
    (st : NonceState) (contract : BaseContract) (fn : String) (args : List String)
    (ov : CallOverrides) (hs : env.signer = some signer)
    (hp : env.providerPresent = true)
    (hperm : permitEligible contract fn args) :
    (sendGaslessTransaction env st contract fn args ov).2.2 =
      (getAndIncrementNonce env st signer.address).2 ∧
    NetEffect.nonceRead ∈ (sendGaslessTransaction env st contract fn args ov).2.1 ∧
    ((sendGaslessTransaction env st contract fn args ov).2.2).lookup signer.address =
      some ((getAndIncrementNonce env st signer.address).1 + 1) ∧
    ∃ out, (sendGaslessTransaction env st contract fn args ov).1 = Except.ok out ∧
      out.message = RelayMessage.permit (permitMessageOf contract.address
        (env.signPermit contract.address signer.address
          (args.getD 0 "") (args.getD 1 ""))) ∧
      (permitMessageOf contract.address
        (env.signPermit contract.address signer.address
          (args.getD 0 "") (args.getD 1 ""))).nonce =
        (env.signPermit contract.address signer.address
          (args.getD 0 "") (args.getD 1 "")).nonce := by
  rw [sendGaslessTransaction_with_signer env signer st contract fn args ov hs hp]
  simp only [gaslessWithSigner]
  rw [if_pos hperm]
  exact ⟨rfl, by simp, getAndIncrementNonce_lookup env st signer.address,
    _, rfl, rfl, rfl⟩

/-- Witness for C10 at a concrete permit-capable token. -/
theorem C10_witness :
    (sendGaslessTransaction (demoEnv (some (demoSigner false)) (some "https://relayer"))
        [] permitTokenContract "approve" ["0xSpender", "1000"] {}).2.2 =
      (getAndIncrementNonce (demoEnv (some (demoSigner false)) (some "https://relayer")) []
        (demoSigner false).address).2 ∧
    NetEffect.nonceRead ∈
      (sendGaslessTransaction (demoEnv (some (demoSigner false)) (some "https://relayer"))
        [] permitTokenContract "approve" ["0xSpender", "1000"] {}).2.1 ∧
    ((sendGaslessTransaction (demoEnv (some (demoSigner false)) (some "https://relayer"))
        [] permitTokenContract "approve" ["0xSpender", "1000"] {}).2.2).lookup
        (demoSigner false).address =
      some ((getAndIncrementNonce (demoEnv (some (demoSigner false)) (some "https://relayer"))
        [] (demoSigner false).address).1 + 1) ∧
    ∃ out, (sendGaslessTransaction (demoEnv (some (demoSigner false)) (some "https://relayer"))
        [] permitTokenContract "approve" ["0xSpender", "1000"] {}).1 = Except.ok out ∧
      out.message = RelayMessage.permit (permitMessageOf permitTokenContract.address
        ((demoEnv (some (demoSigner false)) (some "https://relayer")).signPermit
          permitTokenContract.address (demoSigner false).address "0xSpender" "1000")) ∧
      (permitMessageOf permitTokenContract.address
        ((demoEnv (some (demoSigner false)) (some "https://relayer")).signPermit
          permitTokenContract.address (demoSigner false).address "0xSpender" "1000")).nonce =
        ((demoEnv (some (demoSigner false)) (some "https://relayer")).signPermit
          permitTokenContract.address (demoSigner false).address "0xSpender" "1000").nonce :=
  C10_permit_path_consumes_nonce
    (demoEnv (some (demoSigner false)) (some "https://relayer")) (demoSigner false)
    [] permitTokenContract "approve" ["0xSpender", "1000"] {} rfl rfl (by decide)

/-- Claim C8: the transaction hash returned by the injected relay-dispatch
function is what is passed to the provider's `waitForTransaction`, and the
receipt it resolves to is returned unchanged. -/
theorem C8_receipt_passthrough (env : ModuleEnv) (st : NonceState)
    (contract : BaseContract) (fn : String) (args : List String)
    (ov : CallOverrides) (out : GaslessOutcome)
    (h : (sendGaslessTransaction env st contract fn args ov).1 = Except.ok out) :
    out.txHash = env.relaySend out.message out.signature ∧
    out.receipt = env.waitForTransaction out.txHash := by
  unfold sendGaslessTransaction at h
  cases hs : env.signer with
  | none => rw [hs] at h; exact absurd h (by simp)
  | some signer =>
    rw [hs] at h
    cases hp : env.providerPresent with
    | false => rw [hp] at h; exact absurd h (by simp)
    | true =>
      rw [hp] at h
      simp only [if_true] at h
      simp only [gaslessWithSigner] at h
      by_cases hperm : permitEligible contract fn args
      · rw [if_pos hperm] at h
        simp only [Except.ok.injEq] at h
        subst h
        exact ⟨rfl, rfl⟩
      · rw [if_neg hperm] at h
        simp only [Except.ok.injEq] at h
        subst h
        exact ⟨rfl, rfl⟩

/-- Witness for C8: the concrete relay returns `0xabc` and the awaited
receipt for that hash is returned. -/
theorem C8_witness :
    (GaslessOutcome.mk
        (RelayMessage.forward (forwardMessageOf
          (demoEnv (some (demoSigner false)) (some "https://relayer")) (demoSigner false)
          plainContract "transfer" ["0xdead", "7"] {} 7))
        (typedDataSignOf (demoEnv (some (demoSigner false)) (some "https://relayer"))
          (demoSigner false)
          (gaslessDomain (demoEnv (some (demoSigner false)) (some "https://relayer")))
          (forwardMessageOf (demoEnv (some (demoSigner false)) (some "https://relayer"))
            (demoSigner false) plainContract "transfer" ["0xdead", "7"] {} 7))
        "0xabc" (Receipt.mk "0xabc" 1)).txHash =
      (demoEnv (some (demoSigner false)) (some "https://relayer")).relaySend
        (GaslessOutcome.mk
          (RelayMessage.forward (forwardMessageOf
            (demoEnv (some (demoSigner false)) (some "https://relayer")) (demoSigner false)
            plainContract "transfer" ["0xdead", "7"] {} 7))
          (typedDataSignOf (demoEnv (some (demoSigner false)) (some "https://relayer"))
            (demoSigner false)
            (gaslessDomain (demoEnv (some (demoSigner false)) (some "https://relayer")))
            (forwardMessageOf (demoEnv (some (demoSigner false)) (some "https://relayer"))
              (demoSigner false) plainContract "transfer" ["0xdead", "7"] {} 7))
          "0xabc" (Receipt.mk "0xabc" 1)).message
        (GaslessOutcome.mk
          (RelayMessage.forward (forwardMessageOf
            (demoEnv (some (demoSigner false)) (some "https://relayer")) (demoSigner false)
            plainContract "transfer" ["0xdead", "7"] {} 7))
          (typedDataSignOf (demoEnv (some (demoSigner false)) (some "https://relayer"))
            (demoSigner false)
            (gaslessDomain (demoEnv (some (demoSigner false)) (some "https://relayer")))
            (forwardMessageOf (demoEnv (some (demoSigner false)) (some "https://relayer"))
              (demoSigner false) plainContract "transfer" ["0xdead", "7"] {} 7))
          "0xabc" (Receipt.mk "0xabc" 1)).signature ∧
    (GaslessOutcome.mk
        (RelayMessage.forward (forwardMessageOf
          (demoEnv (some (demoSigner false)) (some "https://relayer")) (demoSigner false)
          plainContract "transfer" ["0xdead", "7"] {} 7))
        (typedDataSignOf (demoEnv (some (demoSigner false)) (some "https://relayer"))
          (demoSigner false)
          (gaslessDomain (demoEnv (some (demoSigner false)) (some "https://relayer")))
          (forwardMessageOf (demoEnv (some (demoSigner false)) (some "https://relayer"))
            (demoSigner false) plainContract "transfer" ["0xdead", "7"] {} 7))
        "0xabc" (Receipt.mk "0xabc" 1)).receipt =
      (demoEnv (some (demoSigner false)) (some "https://relayer")).waitForTransaction
        (GaslessOutcome.mk
          (RelayMessage.forward (forwardMessageOf
            (demoEnv (some (demoSigner false)) (some "https://relayer")) (demoSigner false)
            plainContract "transfer" ["0xdead", "7"] {} 7))
          (typedDataSignOf (demoEnv (some (demoSigner false)) (some "https://relayer"))
            (demoSigner false)
            (gaslessDomain (demoEnv (some (demoSigner false)) (some "https://relayer")))
            (forwardMessageOf (demoEnv (some (demoSigner false)) (some "https://relayer"))
              (demoSigner false) plainContract "transfer" ["0xdead", "7"] {} 7))
          "0xabc" (Receipt.mk "0xabc" 1)).txHash :=
  C8_receipt_passthrough (demoEnv (some (demoSigner false)) (some "https://relayer"))
    [] plainContract "transfer" ["0xdead", "7"] {} _ rfl

/-- Claim C7: `sendContractTransaction` routes to the gasless path exactly
when the relay transport option is configured (truthy); otherwise it submits
directly with the computed overrides — a gas-price override when the
chain-keyed oracle yields a (non-zero) price and no override at all when it
yields none — and waits for the receipt. -/
theorem C7_routing_and_overrides (env : ModuleEnv) (st : NonceState)
    (contract : BaseContract) (fn : String) (args : List String) :
    (truthyStr env.options.transactionRelayerUrl = true →
      sendContractTransaction env st contract fn args none =
        ContractTxOutcome.gasless
          (sendGaslessTransaction env st contract fn args (getCallOverrides env)).1
          (sendGaslessTransaction env st contract fn args (getCallOverrides env)).2.1
          (sendGaslessTransaction env st contract fn args (getCallOverrides env)).2.2) ∧
    (truthyStr env.options.transactionRelayerUrl = false →
      sendContractTransaction env st contract fn args none =
        ContractTxOutcome.standard (getCallOverrides env)
          (sendAndWaitForTransaction env contract fn args (getCallOverrides env))) ∧
    (env.gasPriceOracle env.chainId env.options.gasSpeed env.options.maxGasPriceInGwei
        = none →
      getCallOverrides env = { value := none, gasPrice := none }) ∧
    (∀ g, env.gasPriceOracle env.chainId env.options.gasSpeed env.options.maxGasPriceInGwei
        = some g → g ≠ 0 →
      (getCallOverrides env).gasPrice = some (g * 1000000000)) := by
  refine ⟨fun ht => ?_, fun hf => ?_, fun hn => ?_, fun g hg hg0 => ?_⟩
  · simp only [sendContractTransaction]
    rw [if_pos ht]
  · simp only [sendContractTransaction]
    rw [if_neg (by simp [hf])]
  · simp [getCallOverrides, hn]
  · simp [getCallOverrides, hg, hg0]

/-- Witness for C7: both routing branches and both oracle outcomes at
concrete environments. -/
theorem C7_witness :
    sendContractTransaction (demoEnv (some (demoSigner false)) (some "https://relayer"))
        [] plainContract "transfer" ["0xdead", "7"] none =
      ContractTxOutcome.gasless
        (sendGaslessTransaction (demoEnv (some (demoSigner false)) (some "https://relayer"))
          [] plainContract "transfer" ["0xdead", "7"]
          (getCallOverrides (demoEnv (some (demoSigner false)) (some "https://relayer")))).1
        (sendGaslessTransaction (demoEnv (some (demoSigner false)) (some "https://relayer"))
          [] plainContract "transfer" ["0xdead", "7"]
          (getCallOverrides (demoEnv (some (demoSigner false)) (some "https://relayer")))).2.1
        (sendGaslessTransaction (demoEnv (some (demoSigner false)) (some "https://relayer"))
          [] plainContract "transfer" ["0xdead", "7"]
          (getCallOverrides (demoEnv (some (demoSigner false)) (some "https://relayer")))).2.2 ∧
    sendContractTransaction (demoEnv (some (demoSigner false)) none)
        [] plainContract "transfer" ["0xdead", "7"] none =
      ContractTxOutcome.standard
        (getCallOverrides (demoEnv (some (demoSigner false)) none))
        (sendAndWaitForTransaction (demoEnv (some (demoSigner false)) none)
          plainContract "transfer" ["0xdead", "7"]
          (getCallOverrides (demoEnv (some (demoSigner false)) none))) ∧
    (getCallOverrides (demoEnv (some (demoSigner false)) none)).gasPrice =
      some (40 * 1000000000) :=
  ⟨(C7_routing_and_overrides (demoEnv (some (demoSigner false)) (some "https://relayer"))
      [] plainContract "transfer" ["0xdead", "7"]).1 (by decide),
   (C7_routing_and_overrides (demoEnv (some (demoSigner false)) none)
      [] plainContract "transfer" ["0xdead", "7"]).2.1 (by decide),
   (C7_routing_and_overrides (demoEnv (some (demoSigner false)) none)
      [] plainContract "transfer" ["0xdead", "7"]).2.2.2 40 rfl (by decide)⟩

/-- Claim C5 (refuting theorem): `sendGaslessTransaction` sets the generic
`ForwardRequest.to` to the module's own address (`this.address`), not to the
address of the contract whose function is being called.  At this concrete
input — the module at `0xModule` relaying a call encoded against the token
contract at `0xToken`, exactly the shape `bundleDrop` produces when it calls
`sendContractTransaction(erc20, "approve", ...)` — the built request's `to`
is `0xModule` while the target contract's address is `0xToken`.  The other
field claims (`from`, default `value` 0, decimal rendering) do hold and are
evaluated here as well. -/
theorem C5_to_is_module_address :
    ∃ out fwd,
      (sendGaslessTransaction (demoEnv (some (demoSigner false)) (some "https://relayer"))
          [] plainContract "transfer" ["0xdead", "7"] {}).1 = Except.ok out ∧
      out.message = RelayMessage.forward fwd ∧
      fwd.toAddr = "0xModule" ∧
      plainContract.address = "0xToken" ∧
      fwd.toAddr ≠ plainContract.address ∧
      fwd.fromAddr = (demoSigner false).address ∧
      fwd.value = "0" ∧
      fwd.gas = Nat.repr (gaslessGas plainContract "transfer" ["0xdead", "7"]) ∧
      fwd.nonce = "7" :=
  ⟨_, _, rfl, rfl, rfl, rfl, by decide, rfl, rfl, rfl, rfl⟩

end ThirdwebGasless
